import Mathlib

/-!
Shallow embedding of the tabox sandbox (Rust) for checking its
natural-language specification.  Every definition below is translated from
the repository sources; the file path and function of origin are named in
each doc comment.
-/

namespace Tabox

/-! ## Result model (src/result.rs) -/

/-- Exit status of a sandbox process, from `src/result.rs` (`enum ExitStatus`).
Rust `i32` payloads are modelled as `Int`. -/
inductive ExitStatus where
  | ExitCode (code : Int)
  | Signal (signal : Int)
  | Killed
  deriving DecidableEq, Repr

/-- Resource usage record, from `src/result.rs` (`struct ResourceUsage`).
The Rust `u64` field is a `Nat`; the `f64` fields are modelled as exact
rationals (every finite double is a rational, and all arithmetic the claims
touch is structural, not rounding-sensitive). -/
structure ResourceUsage where
  memory_usage : Nat
  user_cpu_time : Rat
  system_cpu_time : Rat
  wall_time_usage : Rat
  deriving DecidableEq, Repr

/-- Execution result record, from `src/result.rs`
(`struct SandboxExecutionResult`). -/
structure SandboxExecutionResult where
  status : ExitStatus
  resource_usage : ResourceUsage
  deriving DecidableEq, Repr

/-! ## Wait-status macros (Rust `libc` crate, Linux definitions)

The supervisor in `src/linux/mod.rs` interprets the `wait4` status with the
`libc` crate macros.  Their Linux definitions are:
  WIFEXITED(s)   = (s & 0x7f) == 0
  WEXITSTATUS(s) = (s >> 8) & 0xff
  WTERMSIG(s)    = s & 0x7f
  WIFSIGNALED(s) = ((((s & 0x7f) + 1) as i8) >> 1) > 0
The `as i8` cast and the arithmetic right shift are modelled exactly. -/

/-- Rust `as i8` cast of a nonnegative integer: two's-complement wrap of the
low byte. -/
def i8_cast (n : Nat) : Int :=
  if n % 256 < 128 then ((n % 256 : Nat) : Int) else ((n % 256 : Nat) : Int) - 256

/-- Arithmetic right shift by one on a signed value (Rust `>> 1` on `i8`),
which is floor division by two. -/
def asr1 (x : Int) : Int := Int.fdiv x 2

/-- Linux `WIFEXITED`, from the Rust `libc` crate. -/
def WIFEXITED (status : Nat) : Bool := status &&& 0x7f == 0

/-- Linux `WEXITSTATUS`, from the Rust `libc` crate. -/
def WEXITSTATUS (status : Nat) : Nat := (status >>> 8) &&& 0xff

/-- Linux `WTERMSIG`, from the Rust `libc` crate. -/
def WTERMSIG (status : Nat) : Nat := status &&& 0x7f

/-- Linux `WIFSIGNALED`, from the Rust `libc` crate. -/
def WIFSIGNALED (status : Nat) : Bool := 0 < asr1 (i8_cast ((status &&& 0x7f) + 1))

/-- Linux `WIFSTOPPED`, from the Rust `libc` crate. -/
def WIFSTOPPED (status : Nat) : Bool := status &&& 0xff == 0x7f

/-- Status translation performed by the Linux supervisor after reaping the
child, from `src/linux/mod.rs` lines 146-152 (`watcher`):

    status: if killed.load(Ordering::SeqCst) {
        ExitStatus::Killed
    } else if WIFEXITED(status) {
        ExitStatus::ExitCode(WEXITSTATUS(status))
    } else {
        ExitStatus::Signal(WTERMSIG(status))
    }
-/
def translate_status (killed : Bool) (status : Nat) : ExitStatus :=
  if killed then ExitStatus.Killed
  else if WIFEXITED status then ExitStatus.ExitCode (WEXITSTATUS status)
  else ExitStatus.Signal (WTERMSIG status)

/-! ## Wall-time watcher thread (src/linux/mod.rs, src/util.rs, src/macos/mod.rs) -/

/-- One observable effect of the wall-time watcher thread. -/
inductive WatcherEvent where
  | sleep (seconds : Nat)
  | sigkill
  | storeKilled
  deriving DecidableEq, Repr

/-- Effect sequence of the wall-time watcher thread, from
`src/linux/mod.rs` lines 126-133; the identical sequence appears in
`src/util.rs` (`start_wall_time_watcher`, lines 122-130) and
`src/macos/mod.rs` (lines 92-99):

    thread::sleep(Duration::new(limit, 0));
    check_syscall!(kill(child_pid, SIGKILL));
    killed.store(true, Ordering::SeqCst);
-/
def wall_time_watcher (limit : Nat) : List WatcherEvent :=
  [WatcherEvent.sleep limit, WatcherEvent.sigkill, WatcherEvent.storeKilled]

/-! ## Identity mapping writes (src/linux/mod.rs lines 106-110) -/

/-- Content written to `/proc/self/setgroups` by the cloned child,
from `src/linux/mod.rs` line 108. -/
def setgroups_write : String := "deny"

/-- Content written to `/proc/self/uid_map` by the cloned child, from
`src/linux/mod.rs` line 109: `format!("0 {} 1", uid)` where `uid` is the
parent (outside) uid read with `getuid()`.  The configured `config.uid` is
not consulted. -/
def uid_map_write (parent_uid : Nat) : String :=
  "0 " ++ toString parent_uid ++ " 1"

/-- Content written to `/proc/self/gid_map` by the cloned child, from
`src/linux/mod.rs` line 110: `format!("0 {} 1", gid)` with the parent gid. -/
def gid_map_write (parent_gid : Nat) : String :=
  "0 " ++ toString parent_gid ++ " 1"

/-! ## Resource limits -/

/-- A soft/hard limit pair as passed to `setrlimit` (`struct rlimit`). -/
structure Rlimit where
  rlim_cur : Nat
  rlim_max : Nat
  deriving DecidableEq, Repr

/-- The rlimit that the Linux backend passes to `setrlimit`, from
`src/linux/mod.rs` lines 391-398 (`set_resource_limit`):

    let r_limit = rlimit { rlim_cur: limit, rlim_max: limit };
    setrlimit(resource, &r_limit)

No `getrlimit` is performed and no clamping happens. -/
def linux_set_resource_limit (limit : Nat) : Rlimit :=
  { rlim_cur := limit, rlim_max := limit }

/-- The rlimit that `src/util.rs` lines 56-87 (`set_resource_limit`) passes
to `setrlimit`: the current limit is read with `getrlimit` (modelled as the
`current` argument) and the request is capped at the current hard limit:

    rlim_cur: if rlim < current_limit.rlim_max { rlim } else { current_limit.rlim_max },
    rlim_max: if rlim < current_limit.rlim_max { rlim } else { current_limit.rlim_max },
-/
def util_set_resource_limit (current : Rlimit) (limit : Nat) : Rlimit :=
  { rlim_cur := if limit < current.rlim_max then limit else current.rlim_max,
    rlim_max := if limit < current.rlim_max then limit else current.rlim_max }

/-! ## Syscall filter configuration (src/syscall_filter.rs) -/

/-- System call filter action, from `src/syscall_filter.rs`
(`enum SyscallFilterAction`); the `u32` errno payload is a `Nat`. -/
inductive SyscallFilterAction where
  | Allow
  | Kill
  | Errno (errno : Nat)
  deriving DecidableEq, Repr

/-- Syscall filter configuration, from `src/syscall_filter.rs`
(`struct SyscallFilter`). -/
structure SyscallFilter where
  default_action : SyscallFilterAction
  rules : List (String × SyscallFilterAction)
  deriving DecidableEq, Repr

/-- The `Default` instance of `SyscallFilter` from `src/syscall_filter.rs`
lines 31-38: default action `Kill`, no rules. -/
def SyscallFilter.defaultFilter : SyscallFilter :=
  { default_action := SyscallFilterAction.Kill, rules := [] }

/-- Preset builder, from `src/syscall_filter.rs` lines 42-56
(`SyscallFilter::build`): start from the default, set the default action to
`Allow`, then add `Kill` rules for the process-creation syscalls when
`multiprocess` is false and the chmod family when `chmod` is false. -/
def SyscallFilter.build (multiprocess chmod : Bool) : SyscallFilter :=
  let filter := { SyscallFilter.defaultFilter with default_action := SyscallFilterAction.Allow }
  let filter :=
    if !multiprocess then
      { filter with rules := filter.rules ++
          [("fork", SyscallFilterAction.Kill),
           ("vfork", SyscallFilterAction.Kill),
           ("clone", SyscallFilterAction.Kill)] }
    else filter
  let filter :=
    if !chmod then
      { filter with rules := filter.rules ++
          [("chmod", SyscallFilterAction.Kill),
           ("fchmod", SyscallFilterAction.Kill),
           ("fchmodat", SyscallFilterAction.Kill)] }
    else filter
  filter

/-! ## Sandbox configuration (src/configuration.rs) -/

/-- Mountpoint description, from `src/configuration.rs`
(`struct DirectoryMount`); paths are modelled as strings. -/
structure DirectoryMount where
  target : String
  source : String
  writable : Bool
  deriving DecidableEq, Repr

/-- Sandbox configuration, from `src/configuration.rs`
(`struct SandboxConfiguration`). -/
structure SandboxConfiguration where
  time_limit : Option Nat
  memory_limit : Option Nat
  stack_limit : Option Nat
  executable : String
  args : List String
  env : List (String × String)
  mount_paths : List DirectoryMount
  working_directory : String
  stdin : Option String
  stdout : Option String
  stderr : Option String
  syscall_filter : Option SyscallFilter
  mount_tmpfs : Bool
  wall_time_limit : Option Nat
  cpu_core : Option Nat
  uid : Nat
  gid : Nat
  mount_proc : Bool
  deriving DecidableEq, Repr

/-- The `Default` instance of `SandboxConfiguration`, from
`src/configuration.rs` lines 87-110. -/
def SandboxConfiguration.defaultConfig : SandboxConfiguration :=
  { time_limit := none
    memory_limit := none
    stack_limit := none
    executable := "/bin/sh"
    args := []
    env := []
    mount_paths := []
    working_directory := "/"
    stdin := none
    stdout := none
    stderr := none
    syscall_filter := none
    mount_tmpfs := false
    wall_time_limit := none
    cpu_core := none
    uid := 0
    gid := 0
    mount_proc := false }

/-! ## Child setup sequence (src/linux/mod.rs, `child` and its helpers)

The cloned child runs, in source order (lines 181-187):

    setup_filesystem(config, sandbox_path);
    setup_resource_limits(config);
    setup_syscall_filter(config);
    setup_io_redirection(config);
    setup_thread_affinity(config);
    enter_chroot(config, sandbox_path);
    exec_child(config);

Each helper is embedded as the list of externally visible events it
performs for a given configuration; the child is their concatenation. -/

/-- Resources limited by the Linux child (`src/linux/mod.rs`
`setup_resource_limits`): address space, CPU seconds, core size. -/
inductive RlimResource where
  | as
  | cpu
  | core
  deriving DecidableEq, Repr

/-- One externally visible action of the child setup sequence. -/
inductive ChildEvent where
  | fsAssembly
  | setrlimit (resource : RlimResource) (value : Rlimit)
  | seccompLoad (filter : SyscallFilter)
  | dup2 (fd : Nat)
  | setAffinity (core : Nat)
  | chroot
  | chdir
  | execve
  deriving DecidableEq, Repr

/-- Events of `setup_filesystem` (src/linux/mod.rs lines 257-289): the whole
sandbox-root assembly, kept as one event since no claim looks inside it. -/
def setup_filesystem_events : List ChildEvent := [ChildEvent.fsAssembly]

/-- Events of `setup_resource_limits` (src/linux/mod.rs lines 314-325):
RLIMIT_AS when a memory limit is set, RLIMIT_CPU when a time limit is set,
then always RLIMIT_CORE 0; each through the unclamped
`linux_set_resource_limit`. -/
def setup_resource_limits_events (config : SandboxConfiguration) : List ChildEvent :=
  (match config.memory_limit with
   | some memory_limit => [ChildEvent.setrlimit RlimResource.as (linux_set_resource_limit memory_limit)]
   | none => []) ++
  (match config.time_limit with
   | some time_limit => [ChildEvent.setrlimit RlimResource.cpu (linux_set_resource_limit time_limit)]
   | none => []) ++
  [ChildEvent.setrlimit RlimResource.core (linux_set_resource_limit 0)]

/-- Events of `setup_syscall_filter` (src/linux/mod.rs lines 246-254): when a
filter is configured, build it and load it into the kernel. -/
def setup_syscall_filter_events (config : SandboxConfiguration) : List ChildEvent :=
  match config.syscall_filter with
  | some filter => [ChildEvent.seccompLoad filter]
  | none => []

/-- Events of `setup_io_redirection` (src/linux/mod.rs lines 292-311):
dup2 onto fds 0, 1, 2 for each configured redirection. -/
def setup_io_redirection_events (config : SandboxConfiguration) : List ChildEvent :=
  (match config.stdin with
   | some _ => [ChildEvent.dup2 0]
   | none => []) ++
  (match config.stdout with
   | some _ => [ChildEvent.dup2 1]
   | none => []) ++
  (match config.stderr with
   | some _ => [ChildEvent.dup2 2]
   | none => [])

/-- Events of `setup_thread_affinity` (src/linux/mod.rs lines 191-198). -/
def setup_thread_affinity_events (config : SandboxConfiguration) : List ChildEvent :=
  match config.cpu_core with
  | some core => [ChildEvent.setAffinity core]
  | none => []

/-- Events of `enter_chroot` (src/linux/mod.rs lines 201-209): chroot into
the sandbox root, then chdir to the working directory. -/
def enter_chroot_events : List ChildEvent := [ChildEvent.chroot, ChildEvent.chdir]

/-- Events of `exec_child` (src/linux/mod.rs lines 211-233). -/
def exec_child_events : List ChildEvent := [ChildEvent.execve]

/-- The complete child setup sequence, from `child`
(src/linux/mod.rs lines 176-188). -/
def child_events (config : SandboxConfiguration) : List ChildEvent :=
  setup_filesystem_events ++
  setup_resource_limits_events config ++
  setup_syscall_filter_events config ++
  setup_io_redirection_events config ++
  setup_thread_affinity_events config ++
  enter_chroot_events ++
  exec_child_events

/-! ## Seccomp wrapper (src/linux/seccomp_filter.rs) -/

/-- Seccomp action value `SCMP_ACT_KILL`, from the `seccomp-sys` crate. -/
def SCMP_ACT_KILL : Nat := 0x00000000

/-- Seccomp action value `SCMP_ACT_ALLOW`, from the `seccomp-sys` crate. -/
def SCMP_ACT_ALLOW : Nat := 0x7fff0000

/-- Seccomp action value `SCMP_ACT_ERRNO(x)`, from the `seccomp-sys` crate:
`0x00050000 | (x & 0x0000ffff)`. -/
def SCMP_ACT_ERRNO (x : Nat) : Nat := 0x00050000 ||| (x &&& 0x0000ffff)

/-- Action translation, from `src/linux/seccomp_filter.rs` lines 14-23
(`SyscallFilterAction::to_seccomp_param`). -/
def SyscallFilterAction.to_seccomp_param : SyscallFilterAction → Nat
  | SyscallFilterAction.Allow => SCMP_ACT_ALLOW
  | SyscallFilterAction.Kill => SCMP_ACT_KILL
  | SyscallFilterAction.Errno errno => SCMP_ACT_ERRNO errno

/-- The `filter` operation of the seccomp wrapper, from
`src/linux/seccomp_filter.rs` lines 42-61 (`SeccompFilter::filter`).

The external libseccomp name resolver is a parameter `resolve`; `none`
models `seccomp_syscall_resolve_name` returning `__NR_SCMP_ERROR`.  The
filter context is modelled by its list of installed rules
`(syscall number, seccomp action value)`; `seccomp_rule_add` on a resolved
number appends the rule (its kernel-side failure modes are outside the
embedding).  On an unknown name the operation fails with the source's
message and adds no rule. -/
def seccomp_filter_add (resolve : String → Option Nat)
    (rules : List (Nat × Nat)) (name : String) (action : SyscallFilterAction) :
    Except String (List (Nat × Nat)) :=
  match resolve name with
  | none =>
      Except.error ("Error calling seccomp_syscall_resolve_name: unknown system call: " ++ name)
  | some num =>
      Except.ok (rules ++ [(num, action.to_seccomp_param)])

/-! ## Signal names (src/result.rs, src/util.rs) -/

/-- The `signal_name` method, from `src/result.rs` lines 58-68
(`ExitStatus::signal_name`).  The platform `strsignal` lookup wrapped by
`util::strsignal` (src/util.rs lines 155-172) is a parameter returning
`none` when no name is available. -/
def ExitStatus.signal_name (strsignal : Int → Option String) : ExitStatus → Option String
  | ExitStatus.Signal signal => strsignal signal
  | _ => none

/-! ## JSON round trip (src/result.rs derives, serde externally tagged format)

`SandboxExecutionResult` derives `Serialize`/`Deserialize`; serde_json
produces the externally tagged representation
`{"status":{"ExitCode":N}|{"Signal":N}|"Killed","resource_usage":{...}}`.
The JSON value tree is modelled with exact rational numbers (serde_json
round-trips every finite `f64` exactly; the claims are structural).  The
parser below is the serde deserializer restricted to the shapes the
serializer emits, with the integer-type checks serde performs for the `i32`
and `u64` fields. -/

/-- JSON value tree (arrays are never produced by this schema and are
omitted). -/
inductive Json where
  | null
  | num (value : Rat)
  | str (value : String)
  | obj (fields : List (String × Json))

/-- Serde deserialization of an `i32` from a JSON number: the number must be
integral and in range. -/
def ratToI32 (q : Rat) : Option Int :=
  if q.den = 1 ∧ -(2 ^ 31) ≤ q.num ∧ q.num < 2 ^ 31 then some q.num else none

/-- Serde deserialization of a `u64` from a JSON number: the number must be
integral, nonnegative and in range. -/
def ratToU64 (q : Rat) : Option Nat :=
  if q.den = 1 ∧ 0 ≤ q.num ∧ q.num < 2 ^ 64 then some q.num.toNat else none

/-- Serialization of `ExitStatus` (externally tagged serde enum):
newtype variants become single-field objects, the unit variant a string. -/
def ExitStatus.toJson : ExitStatus → Json
  | ExitStatus.ExitCode code => Json.obj [("ExitCode", Json.num (code : Rat))]
  | ExitStatus.Signal signal => Json.obj [("Signal", Json.num (signal : Rat))]
  | ExitStatus.Killed => Json.str "Killed"

/-- Deserialization of `ExitStatus`. -/
def ExitStatus.fromJson : Json → Option ExitStatus
  | Json.obj [("ExitCode", Json.num q)] => (ratToI32 q).map ExitStatus.ExitCode
  | Json.obj [("Signal", Json.num q)] => (ratToI32 q).map ExitStatus.Signal
  | Json.str "Killed" => some ExitStatus.Killed
  | _ => none

/-- Serialization of `ResourceUsage`: an object with the four fields in
declaration order. -/
def ResourceUsage.toJson (r : ResourceUsage) : Json :=
  Json.obj
    [("memory_usage", Json.num (r.memory_usage : Rat)),
     ("user_cpu_time", Json.num r.user_cpu_time),
     ("system_cpu_time", Json.num r.system_cpu_time),
     ("wall_time_usage", Json.num r.wall_time_usage)]

/-- Deserialization of `ResourceUsage`. -/
def ResourceUsage.fromJson : Json → Option ResourceUsage
  | Json.obj
      [("memory_usage", Json.num m),
       ("user_cpu_time", Json.num u),
       ("system_cpu_time", Json.num s),
       ("wall_time_usage", Json.num w)] =>
      (ratToU64 m).map fun memory =>
        { memory_usage := memory, user_cpu_time := u,
          system_cpu_time := s, wall_time_usage := w }
  | _ => none

/-- Serialization of `SandboxExecutionResult`. -/
def SandboxExecutionResult.toJson (r : SandboxExecutionResult) : Json :=
  Json.obj
    [("status", r.status.toJson),
     ("resource_usage", r.resource_usage.toJson)]

/-- Deserialization of `SandboxExecutionResult`. -/
def SandboxExecutionResult.fromJson : Json → Option SandboxExecutionResult
  | Json.obj [("status", s), ("resource_usage", u)] =>
      match ExitStatus.fromJson s, ResourceUsage.fromJson u with
      | some status, some resource_usage => some { status := status, resource_usage := resource_usage }
      | _, _ => none
  | _ => none

/-- Value invariant of the Rust types: the `i32` payload of the status is in
`i32` range and the `u64` memory usage is in `u64` range.  Every value the
Rust program can hold satisfies it. -/
def SandboxExecutionResult.Wf (r : SandboxExecutionResult) : Prop :=
  (match r.status with
   | ExitStatus.ExitCode code => -(2 ^ 31) ≤ code ∧ code < 2 ^ 31
   | ExitStatus.Signal signal => -(2 ^ 31) ≤ signal ∧ signal < 2 ^ 31
   | ExitStatus.Killed => True) ∧
  r.resource_usage.memory_usage < 2 ^ 64

/-! ## Command line interface (src/bin/tabox.rs) -/

/-- Parsed command line, from `src/bin/tabox.rs` (`struct Args`).
Flags default to false, repeatable options to the empty list; `uid` and
`gid` default to 0 through structopt. -/
structure Args where
  time_limit : Option Nat
  memory_limit : Option Nat
  executable : String
  args : List String
  env : List String
  mount : List String
  working_directory : Option String
  allow_chmod : Bool
  allow_multiprocess : Bool
  stdin : Option String
  stdout : Option String
  stderr : Option String
  allow_insecure : Bool
  json : Bool
  mount_tmpfs : Bool
  wall_limit : Option Nat
  cpu_core : Option Nat
  uid : Nat
  gid : Nat
  mount_proc : Bool
  deriving DecidableEq, Repr

/-- Rust `s.splitn(2, sep)`: split at the first separator only. -/
def splitn2 (sep : Char) (s : String) : List String :=
  match s.splitOn (String.singleton sep) with
  | [] => [s]
  | [only] => [only]
  | first :: rest => [first, String.intercalate (String.singleton sep) rest]

/-- Processing of one `--env VAR[=VAL]` argument, from `src/bin/tabox.rs`
lines 172-187: a bare name inherits the variable from the parent
environment (modelled by `osEnv`) and fails when it is absent; `VAR=VAL`
sets it verbatim. -/
def applyEnvArg (osEnv : String → Option String) (config : SandboxConfiguration)
    (el : String) : Except String SandboxConfiguration :=
  match splitn2 '=' el with
  | [name] =>
      match osEnv name with
      | some value => Except.ok { config with env := config.env ++ [(name, value)] }
      | none => Except.error ("Variable " ++ name ++ " not present in the environment")
  | [name, value] => Except.ok { config with env := config.env ++ [(name, value)] }
  | _ => Except.error ("Invalid env argument: " ++ el)

/-- Processing of one `--mount LOCAL[,SANDBOX[,rw|ro]]` argument, from
`src/bin/tabox.rs` lines 189-206. -/
def applyMountArg (config : SandboxConfiguration) (path : String) :
    Except String SandboxConfiguration :=
  let push := fun (localPath sandboxPath : String) (writable : Bool) =>
    Except.ok { config with mount_paths := config.mount_paths ++
      [{ source := localPath, target := sandboxPath, writable := writable }] }
  match path.splitOn "," with
  | [localPath] => push localPath localPath false
  | [localPath, "rw"] => push localPath localPath true
  | [localPath, sandboxPath] => push localPath sandboxPath false
  | [localPath, sandboxPath, "rw"] => push localPath sandboxPath true
  | [localPath, sandboxPath, "ro"] => push localPath sandboxPath false
  | _ => Except.error ("Invalid mount point: " ++ path)

/-- Configuration assembly of `main` before the syscall-filter step, from
`src/bin/tabox.rs` lines 127-206: defaults, then the direct settings, the
optional settings, the positional arguments, the `--env` loop and the
`--mount` loop. -/
def buildConfigPre (osEnv : String → Option String) (a : Args) :
    Except String SandboxConfiguration := do
  let config := { SandboxConfiguration.defaultConfig with
    executable := a.executable
    mount_tmpfs := a.mount_tmpfs
    uid := a.uid
    gid := a.gid
    mount_proc := a.mount_proc }
  let config := match a.time_limit with
    | some time_limit => { config with time_limit := some time_limit }
    | none => config
  let config := match a.memory_limit with
    | some memory_limit => { config with memory_limit := some (memory_limit * 1000000) }
    | none => config
  let config := match a.wall_limit with
    | some wall_limit => { config with wall_time_limit := some wall_limit }
    | none => config
  let config := match a.stdin with
    | some stdin => { config with stdin := some stdin }
    | none => config
  let config := match a.stdout with
    | some stdout => { config with stdout := some stdout }
    | none => config
  let config := match a.stderr with
    | some stderr => { config with stderr := some stderr }
    | none => config
  let config := match a.working_directory with
    | some working_directory => { config with working_directory := working_directory }
    | none => config
  let config := match a.cpu_core with
    | some core => { config with cpu_core := some core }
    | none => config
  let config := { config with args := config.args ++ a.args }
  let config ← a.env.foldlM (applyEnvArg osEnv) config
  let config ← a.mount.foldlM applyMountArg config
  pure config

/-- The configuration `main` passes to `run`, from `src/bin/tabox.rs`
lines 208-216: after the loops the preset syscall filter is installed
unconditionally and `config.build()` (a clone) is handed to the sandbox. -/
def buildConfig (osEnv : String → Option String) (a : Args) :
    Except String SandboxConfiguration :=
  (buildConfigPre osEnv a).map fun config =>
    { config with syscall_filter := some (SyscallFilter.build a.allow_multiprocess a.allow_chmod) }

/-- Output channel of the CLI process. -/
inductive Channel where
  | stdout
  | stderr
  deriving DecidableEq, Repr

/-- Rendering chosen for the result record. -/
inductive ResultRendering where
  | jsonFormat (value : Json)
  | debugFormat (value : SandboxExecutionResult)

/-- Result reporting of `main` on a successful run, from
`src/bin/tabox.rs` lines 219-224: both branches print with `eprintln!`
(standard error) — serialized JSON under `--json`, `{:#?}` debug formatting
otherwise:

    if args.json {
        eprintln!("{}", serde_json::to_string(&result).unwrap());
    } else {
        eprintln!("{:#?}", result);
    }
-/
def print_result (json : Bool) (result : SandboxExecutionResult) : Channel × ResultRendering :=
  if json then (Channel.stderr, ResultRendering.jsonFormat result.toJson)
  else (Channel.stderr, ResultRendering.debugFormat result)

/-! ## Theorems -/

/-- Helper: a status that reports a normal exit is not a signal
termination under the `libc` macros. -/
theorem wifexited_not_signaled (status : Nat) (h : WIFEXITED status = true) :
    WIFSIGNALED status = false := by
  have h0 : status &&& 127 = 0 := by simpa [WIFEXITED] using h
  simp [WIFSIGNALED, h0, i8_cast, asr1]

/-- C1 (counterexample): the claim says a wait status that is neither a
normal exit nor a signal termination becomes a supervisor error; on the
code, the stopped-by-SIGSTOP status 0x137f (= 4991), which is neither
exited nor signaled, is translated to `Signal(127)` — a status, not an
error. -/
theorem c1_counterexample :
    WIFEXITED 4991 = false ∧ WIFSIGNALED 4991 = false ∧
    translate_status false 4991 = ExitStatus.Signal 127 := by decide

/-- C1 (amended): the Killed flag takes precedence over everything (Killed,
never Signal, even when the kernel reports a signal exit); without the flag
a normal exit yields `ExitCode(code)` and a signal termination yields
`Signal(signum)`; and any other wait status is also translated to
`Signal(WTERMSIG(status))` — the Linux supervisor has no unknown-status
error branch. -/
theorem c1_translate_status (killed : Bool) (status : Nat) :
    (killed = true → translate_status killed status = ExitStatus.Killed) ∧
    (killed = false → WIFEXITED status = true →
      translate_status killed status = ExitStatus.ExitCode (WEXITSTATUS status)) ∧
    (killed = false → WIFSIGNALED status = true →
      translate_status killed status = ExitStatus.Signal (WTERMSIG status)) ∧
    (killed = false → WIFEXITED status = false →
      translate_status killed status = ExitStatus.Signal (WTERMSIG status)) := by
  refine ⟨fun hk => ?_, fun hk he => ?_, fun hk hs => ?_, fun hk he => ?_⟩
  · simp [translate_status, hk]
  · simp [translate_status, hk, he]
  · have he : WIFEXITED status = false := by
      cases he2 : WIFEXITED status
      · rfl
      · rw [wifexited_not_signaled status he2] at hs; exact absurd hs (by simp)
    simp [translate_status, hk, he]
  · simp [translate_status, hk, he]

/-- C1 (witness): with the killed flag clear a SIGKILL termination (status
9) is reported as `Signal(9)`; with the flag set the same status is
reported as `Killed`. -/
theorem c1_translate_status_witness :
    translate_status false 9 = ExitStatus.Signal 9 ∧
    translate_status true 9 = ExitStatus.Killed :=
  ⟨(c1_translate_status false 9).2.2.1 rfl (by decide),
   (c1_translate_status true 9).1 rfl⟩

/-- C2 (counterexample): for the default configuration carrying the preset
filter, the child sequence loads the seccomp filter *before* the chroot
(and before I/O redirection), and the events after the load are
`[chroot, chdir, execve]`, not just `execve` — the claim's ordering is
false on the code. -/
theorem c2_counterexample :
    child_events { SandboxConfiguration.defaultConfig with
        syscall_filter := some (SyscallFilter.build false false) } =
      [ChildEvent.fsAssembly,
       ChildEvent.setrlimit RlimResource.core (linux_set_resource_limit 0),
       ChildEvent.seccompLoad (SyscallFilter.build false false),
       ChildEvent.chroot, ChildEvent.chdir, ChildEvent.execve] ∧
    ¬ ((child_events { SandboxConfiguration.defaultConfig with
          syscall_filter := some (SyscallFilter.build false false) }).indexOf
            ChildEvent.chroot <
        (child_events { SandboxConfiguration.defaultConfig with
          syscall_filter := some (SyscallFilter.build false false) }).indexOf
            (ChildEvent.seccompLoad (SyscallFilter.build false false))) := by
  decide

/-- C2 (amended): for every configuration with a syscall filter set, the
filter load happens after filesystem assembly and after resource-limit
installation, but *before* I/O redirection, CPU affinity, the chroot, the
working-directory change and the execve — not last among restrictions. -/
theorem c2_child_filter_position (config : SandboxConfiguration) (filter : SyscallFilter)
    (h : config.syscall_filter = some filter) :
    child_events config =
      ([ChildEvent.fsAssembly] ++ setup_resource_limits_events config) ++
        [ChildEvent.seccompLoad filter] ++
        (setup_io_redirection_events config ++ setup_thread_affinity_events config ++
          [ChildEvent.chroot, ChildEvent.chdir, ChildEvent.execve]) ∧
    ChildEvent.chroot ∉ [ChildEvent.fsAssembly] ++ setup_resource_limits_events config ∧
    ChildEvent.execve ∉ [ChildEvent.fsAssembly] ++ setup_resource_limits_events config := by
  refine ⟨?_, ?_, ?_⟩
  · simp [child_events, setup_filesystem_events, setup_syscall_filter_events, h,
      enter_chroot_events, exec_child_events]
  · cases hm : config.memory_limit <;> cases ht : config.time_limit <;>
      simp [setup_resource_limits_events, hm, ht]
  · cases hm : config.memory_limit <;> cases ht : config.time_limit <;>
      simp [setup_resource_limits_events, hm, ht]

/-- C2 (witness): the amended ordering evaluated on the default
configuration with the preset filter installed. -/
theorem c2_child_filter_position_witness :
    child_events { SandboxConfiguration.defaultConfig with
        syscall_filter := some (SyscallFilter.build false false) } =
      ([ChildEvent.fsAssembly] ++
        setup_resource_limits_events { SandboxConfiguration.defaultConfig with
          syscall_filter := some (SyscallFilter.build false false) }) ++
        [ChildEvent.seccompLoad (SyscallFilter.build false false)] ++
        (setup_io_redirection_events { SandboxConfiguration.defaultConfig with
            syscall_filter := some (SyscallFilter.build false false) } ++
          setup_thread_affinity_events { SandboxConfiguration.defaultConfig with
            syscall_filter := some (SyscallFilter.build false false) } ++
          [ChildEvent.chroot, ChildEvent.chdir, ChildEvent.execve]) ∧
    ChildEvent.chroot ∉ [ChildEvent.fsAssembly] ++
      setup_resource_limits_events { SandboxConfiguration.defaultConfig with
        syscall_filter := some (SyscallFilter.build false false) } ∧
    ChildEvent.execve ∉ [ChildEvent.fsAssembly] ++
      setup_resource_limits_events { SandboxConfiguration.defaultConfig with
        syscall_filter := some (SyscallFilter.build false false) } :=
  c2_child_filter_position _ (SyscallFilter.build false false) rfl

/-- C3 (code bug): the child writes `"0 {parent_uid} 1"` to
`/proc/self/uid_map` regardless of the configured in-sandbox uid; with
`config.uid = 1000` and parent uid 1000 the written line is `"0 1000 1"`,
not the `"1000 1000 1"` that the documented `uid` field requires. -/
theorem c3_uid_map_ignores_config :
    uid_map_write 1000 = "0 1000 1" ∧
    gid_map_write 1000 = "0 1000 1" ∧
    setgroups_write = "deny" ∧
    uid_map_write 1000 ≠
      toString ({ SandboxConfiguration.defaultConfig with uid := 1000 }).uid
        ++ " " ++ toString 1000 ++ " 1" := by
  refine ⟨rfl, rfl, rfl, ?_⟩
  decide

/-- C4 (counterexample): in the wall-time watcher the SIGKILL is sent
*before* the killed flag is stored; the claim's order (flag first) is false
on the code. -/
theorem c4_counterexample :
    wall_time_watcher 1 =
      [WatcherEvent.sleep 1, WatcherEvent.sigkill, WatcherEvent.storeKilled] ∧
    ¬ ((wall_time_watcher 1).indexOf WatcherEvent.storeKilled <
        (wall_time_watcher 1).indexOf WatcherEvent.sigkill) := by
  decide

/-- C4 (amended): after sleeping for the wall limit the watcher first sends
SIGKILL to the child and only then stores true into the shared killed flag
— kill first, flag second. -/
theorem c4_wall_watcher_order (limit : Nat) :
    wall_time_watcher limit =
      [WatcherEvent.sleep limit] ++ [WatcherEvent.sigkill] ++ [WatcherEvent.storeKilled] ∧
    (wall_time_watcher limit).indexOf WatcherEvent.sigkill <
      (wall_time_watcher limit).indexOf WatcherEvent.storeKilled := by
  constructor
  · rfl
  · have h1 : (wall_time_watcher limit).indexOf WatcherEvent.sigkill = 1 := rfl
    have h2 : (wall_time_watcher limit).indexOf WatcherEvent.storeKilled = 2 := rfl
    rw [h1, h2]
    exact Nat.one_lt_two

/-- C5 (counterexample): the Linux backend's `set_resource_limit` passes the
request through unclamped: with inherited hard limit 5 a request of 10
installs soft = hard = 10, exceeding the inherited hard limit, while the
clamped `util.rs` version would install 5. -/
theorem c5_counterexample :
    linux_set_resource_limit 10 = { rlim_cur := 10, rlim_max := 10 } ∧
    ¬ ((linux_set_resource_limit 10).rlim_max ≤ (Rlimit.mk 5 5).rlim_max) ∧
    util_set_resource_limit (Rlimit.mk 5 5) 10 = { rlim_cur := 5, rlim_max := 5 } := by
  decide

/-- C5 (amended): only the `util.rs` installer reads the current limit and
caps the request — it installs soft = hard = min(requested, current hard),
never exceeding the inherited hard limit; the Linux backend's own
`set_resource_limit` (used by the isolated child for address space, CPU
seconds and core size) installs soft = hard = requested with no clamp. -/
theorem c5_clamp (current : Rlimit) (limit : Nat) :
    (util_set_resource_limit current limit).rlim_cur = min limit current.rlim_max ∧
    (util_set_resource_limit current limit).rlim_max = min limit current.rlim_max ∧
    (util_set_resource_limit current limit).rlim_max ≤ current.rlim_max ∧
    (util_set_resource_limit current limit).rlim_cur ≤ current.rlim_max ∧
    (linux_set_resource_limit limit).rlim_cur = limit ∧
    (linux_set_resource_limit limit).rlim_max = limit := by
  simp only [util_set_resource_limit, linux_set_resource_limit, Nat.min_def]
  split_ifs <;> simp_all <;> omega

/-- C6: the `filter(name, action)` operation fails with a message containing
"unknown system call: name" and appends no rule when the name does not
resolve; when it resolves it appends exactly one rule whose seccomp action
is `SCMP_ACT_ALLOW` for `Allow`, `SCMP_ACT_KILL` for `Kill` and
`SCMP_ACT_ERRNO(n)` for `Errno(n)`, and succeeds. -/
theorem c6_seccomp_filter_add (resolve : String → Option Nat)
    (rules : List (Nat × Nat)) (name : String) (action : SyscallFilterAction) :
    (resolve name = none →
      seccomp_filter_add resolve rules name action =
        Except.error ("Error calling seccomp_syscall_resolve_name: " ++
          ("unknown system call: " ++ name)) ∧
      ∀ rules2, seccomp_filter_add resolve rules name action ≠ Except.ok rules2) ∧
    (∀ num, resolve name = some num →
      seccomp_filter_add resolve rules name action =
        Except.ok (rules ++ [(num, action.to_seccomp_param)])) ∧
    SyscallFilterAction.Allow.to_seccomp_param = SCMP_ACT_ALLOW ∧
    SyscallFilterAction.Kill.to_seccomp_param = SCMP_ACT_KILL ∧
    (∀ errno, (SyscallFilterAction.Errno errno).to_seccomp_param = SCMP_ACT_ERRNO errno) := by
  refine ⟨fun hnone => ⟨?_, ?_⟩, fun num hsome => ?_, rfl, rfl, fun errno => rfl⟩
  · rw [← String.append_assoc]
    simp [seccomp_filter_add, hnone]
  · intro rules2
    simp [seccomp_filter_add, hnone]
  · simp [seccomp_filter_add, hsome]

/-- C6 (witness): with a resolver knowing only `execve ↦ 59`, filtering an
unknown name fails with the expected message, and filtering `execve` with
`Allow` appends the single rule `(59, SCMP_ACT_ALLOW)`. -/
theorem c6_seccomp_filter_add_witness :
    seccomp_filter_add (fun n => if n = "execve" then some 59 else none)
        [] "frobnicate" SyscallFilterAction.Kill =
      Except.error ("Error calling seccomp_syscall_resolve_name: " ++
        ("unknown system call: " ++ "frobnicate")) ∧
    seccomp_filter_add (fun n => if n = "execve" then some 59 else none)
        [] "execve" SyscallFilterAction.Allow =
      Except.ok [(59, SCMP_ACT_ALLOW)] := by
  constructor
  · exact ((c6_seccomp_filter_add (fun n => if n = "execve" then some 59 else none)
      [] "frobnicate" SyscallFilterAction.Kill).1 (by decide)).1
  · have h := (c6_seccomp_filter_add (fun n => if n = "execve" then some 59 else none)
      [] "execve" SyscallFilterAction.Allow).2.1 59 (by decide)
    simpa [SyscallFilterAction.to_seccomp_param] using h

/-- Helper: the resource-usage object round-trips when the memory field is
in `u64` range. -/
theorem ru_roundtrip (m : Nat) (u s w : Rat) (hmem2 : (m : Int) < 2 ^ 64) :
    ResourceUsage.fromJson (ResourceUsage.toJson ⟨m, u, s, w⟩) = some ⟨m, u, s, w⟩ := by
  have hm : ratToU64 ((m : Nat) : Rat) = some m := by
    unfold ratToU64
    rw [Rat.den_natCast, Rat.num_natCast, if_pos ⟨rfl, by positivity, hmem2⟩]
    simp
  simp [ResourceUsage.toJson, ResourceUsage.fromJson, hm]

/-- Helper: the status encoding round-trips when the payload is in `i32`
range. -/
theorem es_roundtrip (status : ExitStatus)
    (hstatus : match status with
      | ExitStatus.ExitCode code => -(2 ^ 31) ≤ code ∧ code < 2 ^ 31
      | ExitStatus.Signal signal => -(2 ^ 31) ≤ signal ∧ signal < 2 ^ 31
      | ExitStatus.Killed => True) :
    ExitStatus.fromJson (ExitStatus.toJson status) = some status := by
  cases status with
  | ExitCode code =>
      obtain ⟨hlo, hhi⟩ := hstatus
      have hcode : ratToI32 ((code : Int) : Rat) = some code := by
        unfold ratToI32
        rw [Rat.den_intCast, Rat.num_intCast, if_pos ⟨rfl, hlo, hhi⟩]
      simp [ExitStatus.toJson, ExitStatus.fromJson, hcode]
  | Signal signal =>
      obtain ⟨hlo, hhi⟩ := hstatus
      have hsig : ratToI32 ((signal : Int) : Rat) = some signal := by
        unfold ratToI32
        rw [Rat.den_intCast, Rat.num_intCast, if_pos ⟨rfl, hlo, hhi⟩]
      simp [ExitStatus.toJson, ExitStatus.fromJson, hsig]
  | Killed =>
      simp [ExitStatus.toJson, ExitStatus.fromJson]

/-- C7: serializing a `SandboxExecutionResult` to JSON and deserializing
the result yields a structurally identical record — same status variant
and payload, same four resource-usage fields — for every value whose
numeric fields are in the ranges of the Rust types. -/
theorem c7_json_roundtrip (r : SandboxExecutionResult) (h : r.Wf) :
    SandboxExecutionResult.fromJson (SandboxExecutionResult.toJson r) = some r := by
  obtain ⟨status, ru⟩ := r
  obtain ⟨hstatus, hmem⟩ := h
  obtain ⟨m, u, s, w⟩ := ru
  have hru : ResourceUsage.fromJson (ResourceUsage.toJson ⟨m, u, s, w⟩) = some ⟨m, u, s, w⟩ :=
    ru_roundtrip m u s w (by exact_mod_cast (hmem : m < 2 ^ 64))
  have hst : ExitStatus.fromJson (ExitStatus.toJson status) = some status :=
    es_roundtrip status hstatus
  show SandboxExecutionResult.fromJson
      (Json.obj [("status", ExitStatus.toJson status),
                 ("resource_usage", ResourceUsage.toJson ⟨m, u, s, w⟩)]) = _
  rw [SandboxExecutionResult.fromJson, hst, hru]

/-- C7 (witness): the round trip evaluated on a concrete record with a
fractional CPU time. -/
theorem c7_json_roundtrip_witness :
    SandboxExecutionResult.fromJson
      (SandboxExecutionResult.toJson
        { status := ExitStatus.ExitCode 0,
          resource_usage :=
            { memory_usage := 1024, user_cpu_time := 1 / 2,
              system_cpu_time := 0, wall_time_usage := 2 } }) =
      some { status := ExitStatus.ExitCode 0,
             resource_usage :=
               { memory_usage := 1024, user_cpu_time := 1 / 2,
                 system_cpu_time := 0, wall_time_usage := 2 } } :=
  c7_json_roundtrip _ ⟨⟨by norm_num, by norm_num⟩, by norm_num⟩

/-- C8: every successfully assembled command-line configuration carries the
preset syscall filter: default action `Allow`, `Kill` rules for `fork`,
`vfork`, `clone` exactly when multiprocess is not allowed, followed by
`Kill` rules for `chmod`, `fchmod`, `fchmodat` exactly when chmod is not
allowed, and nothing else. -/
theorem c8_cli_filter (osEnv : String → Option String) (a : Args)
    (config : SandboxConfiguration) (h : buildConfig osEnv a = Except.ok config) :
    config.syscall_filter = some (SyscallFilter.build a.allow_multiprocess a.allow_chmod) ∧
    (SyscallFilter.build a.allow_multiprocess a.allow_chmod).default_action =
      SyscallFilterAction.Allow ∧
    (SyscallFilter.build a.allow_multiprocess a.allow_chmod).rules =
      (if a.allow_multiprocess then [] else
        [("fork", SyscallFilterAction.Kill), ("vfork", SyscallFilterAction.Kill),
         ("clone", SyscallFilterAction.Kill)]) ++
      (if a.allow_chmod then [] else
        [("chmod", SyscallFilterAction.Kill), ("fchmod", SyscallFilterAction.Kill),
         ("fchmodat", SyscallFilterAction.Kill)]) := by
  refine ⟨?_, ?_, ?_⟩
  · unfold buildConfig at h
    cases hpre : buildConfigPre osEnv a <;> rw [hpre] at h
    · simp [Except.map] at h
    · simp only [Except.map] at h
      cases h
      rfl
  · cases a.allow_multiprocess <;> cases a.allow_chmod <;> rfl
  · cases a.allow_multiprocess <;> cases a.allow_chmod <;> rfl

/-- C8 (witness): the theorem applied to a concrete command line (no env,
no mounts, both allow flags off), whose configuration the embedding
evaluates to a success. -/
theorem c8_cli_filter_witness :
    ({ SandboxConfiguration.defaultConfig with
        executable := "/bin/echo"
        syscall_filter :=
          some (SyscallFilter.build false false) } : SandboxConfiguration).syscall_filter =
      some (SyscallFilter.build false false) ∧
    (SyscallFilter.build false false).default_action = SyscallFilterAction.Allow ∧
    (SyscallFilter.build false false).rules =
      [("fork", SyscallFilterAction.Kill), ("vfork", SyscallFilterAction.Kill),
       ("clone", SyscallFilterAction.Kill)] ++
      [("chmod", SyscallFilterAction.Kill), ("fchmod", SyscallFilterAction.Kill),
       ("fchmodat", SyscallFilterAction.Kill)] :=
  c8_cli_filter (fun _ => none)
    { time_limit := none, memory_limit := none, executable := "/bin/echo",
      args := [], env := [], mount := [], working_directory := none,
      allow_chmod := false, allow_multiprocess := false,
      stdin := none, stdout := none, stderr := none,
      allow_insecure := false, json := false, mount_tmpfs := false,
      wall_limit := none, cpu_core := none, uid := 0, gid := 0, mount_proc := false }
    _ rfl

/-- C9: `signal_name` is `none` for every exit code and for `Killed`; for a
kernel signal it is exactly the platform lookup (which may itself be
`none`); and a `some` answer implies the status is a `Signal`. -/
theorem c9_signal_name (strsignal : Int → Option String) (status : ExitStatus) :
    (∀ code, status = ExitStatus.ExitCode code →
      status.signal_name strsignal = none) ∧
    (status = ExitStatus.Killed → status.signal_name strsignal = none) ∧
    (∀ signal, status = ExitStatus.Signal signal →
      status.signal_name strsignal = strsignal signal) ∧
    (∀ name, status.signal_name strsignal = some name →
      ∃ signal, status = ExitStatus.Signal signal) := by
  cases status <;>
    simp [ExitStatus.signal_name]

/-- C9 (witness): with a lookup that names every signal, `Killed` and
`ExitCode(0)` still give no name, while `Signal(9)` gives the lookup's
answer. -/
theorem c9_signal_name_witness :
    ExitStatus.Killed.signal_name (fun signal => some ("signal " ++ toString signal)) = none ∧
    (ExitStatus.ExitCode 0).signal_name
        (fun signal => some ("signal " ++ toString signal)) = none ∧
    (ExitStatus.Signal 9).signal_name
        (fun signal => some ("signal " ++ toString signal)) =
      some ("signal " ++ toString (9 : Int)) := by
  refine ⟨?_, ?_, ?_⟩
  · exact (c9_signal_name _ ExitStatus.Killed).2.1 rfl
  · exact (c9_signal_name _ (ExitStatus.ExitCode 0)).1 0 rfl
  · exact (c9_signal_name (fun signal => some ("signal " ++ toString signal))
      (ExitStatus.Signal 9)).2.2.1 9 rfl

/-- C10: on a successful run the CLI writes the result record to standard
error in both output modes — the serialized JSON under `--json`, the debug
rendering otherwise — and never to standard output. -/
theorem c10_print_result (json : Bool) (result : SandboxExecutionResult) :
    (print_result json result).1 = Channel.stderr ∧
    (print_result json result).1 ≠ Channel.stdout ∧
    (json = true →
      (print_result json result).2 = ResultRendering.jsonFormat result.toJson) ∧
    (json = false →
      (print_result json result).2 = ResultRendering.debugFormat result) := by
  cases json <;> simp [print_result]

/-- C10 (witness): both output modes evaluated on a concrete result go to
standard error. -/
theorem c10_print_result_witness :
    (print_result true
      { status := ExitStatus.Killed,
        resource_usage :=
          { memory_usage := 0, user_cpu_time := 0,
            system_cpu_time := 0, wall_time_usage := 1 } }).1 = Channel.stderr ∧
    (print_result false
      { status := ExitStatus.Killed,
        resource_usage :=
          { memory_usage := 0, user_cpu_time := 0,
            system_cpu_time := 0, wall_time_usage := 1 } }).1 = Channel.stderr ∧
    (print_result false
      { status := ExitStatus.Killed,
        resource_usage :=
          { memory_usage := 0, user_cpu_time := 0,
            system_cpu_time := 0, wall_time_usage := 1 } }).2 =
      ResultRendering.debugFormat
        { status := ExitStatus.Killed,
          resource_usage :=
            { memory_usage := 0, user_cpu_time := 0,
              system_cpu_time := 0, wall_time_usage := 1 } } :=
  ⟨(c10_print_result true _).1, (c10_print_result false _).1,
   (c10_print_result false _).2.2.2 rfl⟩

end Tabox
